import Mathlib

/-!
Verification of the interactive image annotation canvas component
(file src/unnamed/part_003, component ImageDrawingCanvas) against its
natural-language specification.

The component is embedded shallowly:

* screen/world coordinates, zoom and pan are rational numbers (the source
  computes with JS doubles; all the algebraic claims hold exactly over the
  rationals, which implies they hold within floating-point tolerance);
* the 2D drawing context is a record holding the style state, a style stack
  (save/restore), the current path, and the surface.  The surface is the
  list of painting calls issued so far, each painting call carrying the
  style under which it was issued; getImageData returns that list and
  putImageData of a full-frame snapshot replaces it (which is its pixel
  effect for the full-canvas snapshots the component uses);
* the history machinery (saveState / handleUndo / handleRedo, lines
  192-224 of the source) is embedded once, polymorphically in the type of
  snapshots, and the component handlers delegate to it;
* the platform math routines used by the component (Math.sqrt, Math.atan2,
  Math.cos, Math.sin, Number.toFixed, Math.PI) are not code of the
  repository; they are passed in as an explicit record of uninterpreted
  functions, so every handler stays executable.
-/

namespace Canvas

set_option maxRecDepth 20000

/-- Screen-to-world conversion performed by getPos (source lines 282-285):
world = (client - pan) / zoom, componentwise. -/
def worldFromScreen (zoom : ℚ) (pan p : ℚ × ℚ) : ℚ × ℚ :=
  ((p.1 - pan.1) / zoom, (p.2 - pan.2) / zoom)

/-- World-to-screen conversion: the CSS transform translate(pan) scale(zoom)
with top-left origin (source line 684), equivalently the inverse relation
used inside handleWheel (newPan = mouse - world * newZoom, lines 168-169):
screen = world * zoom + pan. -/
def screenFromWorld (zoom : ℚ) (pan w : ℚ × ℚ) : ℚ × ℚ :=
  (w.1 * zoom + pan.1, w.2 * zoom + pan.2)

namespace Hist

/-- State of the raster history subsystem: the current drawing surface, the
undo history (index 0 oldest, last entry the current committed state) and
the redo stack (index 0 the next state to redo).  Polymorphic in the type
of full-frame snapshots. -/
structure HistState (α : Type) where
  surface : α
  history : List α
  redoStack : List α
deriving DecidableEq

/-- The bounded push used by saveState (source lines 196-200): append the
snapshot, then drop the oldest entry (index 0, via shift) if the length
exceeds 20. -/
def pushBounded {α : Type} (h : List α) (x : α) : List α :=
  let newHist := h ++ [x]
  if newHist.length > 20 then newHist.tail else newHist

/-- saveState (source lines 192-202): push the current surface onto the
history with the 20-entry bound, and clear the redo stack. -/
def saveState {α : Type} (s : HistState α) : HistState α :=
  { s with history := pushBounded s.history s.surface, redoStack := [] }

/-- handleUndo (source lines 204-214): no-op while only the initial entry
remains; otherwise read the top (index length-1) and the entry below it
(index length-2), push the top onto the redo stack, drop it from the
history (slice(0,-1)) and restore the entry below as the surface. -/
def undo {α : Type} (s : HistState α) : HistState α :=
  if s.history.length ≤ 1 then s
  else
    let current := s.history.getD (s.history.length - 1) s.surface
    let previous := s.history.getD (s.history.length - 2) s.surface
    { surface := previous
      history := s.history.dropLast
      redoStack := current :: s.redoStack }

/-- handleRedo (source lines 216-224): no-op on an empty redo stack;
otherwise pop the front of the redo stack, append it to the history and
restore it as the surface. -/
def redo {α : Type} (s : HistState α) : HistState α :=
  match s.redoStack with
  | [] => s
  | next :: rest =>
      { surface := next, history := s.history ++ [next], redoStack := rest }

/-- One committed drawing action: mutate the surface by an arbitrary
drawing operation, then saveState (the commit discipline of the tool
handlers, e.g. source line 419). -/
def commit {α : Type} (f : α → α) (s : HistState α) : HistState α :=
  saveState { s with surface := f s.surface }

/-- A sequence of committed drawing actions, applied left to right. -/
def commitList {α : Type} (fs : List (α → α)) (s : HistState α) : HistState α :=
  fs.foldl (fun t f => commit f t) s

/-- The state right after initialization (source lines 123-124): the
surface is the empty canvas and the history holds exactly that initial
snapshot. -/
def initState {α : Type} (a : α) : HistState α :=
  ⟨a, [a], []⟩

/-- The successive surfaces produced by a sequence of drawing actions
starting from a given surface. -/
def snaps {α : Type} (a : α) : List (α → α) → List α
  | [] => []
  | f :: fs => f a :: snaps (f a) fs

end Hist

/-- The drawing tools (source line 34). -/
inductive Tool where
  | pen | highlighter | line | arrow | rect | circle | text | eraser | pan
deriving DecidableEq

/-- Line styles (source line 36). -/
inductive LineStyle where
  | solid | dashed | dotted
deriving DecidableEq

/-- The style state of a 2D drawing context: exactly the fields the
component reads or writes. -/
structure CtxStyle where
  strokeStyle : String
  fillStyle : String
  lineWidth : ℚ
  lineCap : String
  lineJoin : String
  globalAlpha : ℚ
  lineDash : List ℚ
  globalCompositeOperation : String
  font : String
  textAlign : String
  textBaseline : String
  shadowColor : String
  shadowBlur : ℚ
deriving DecidableEq

/-- The default style of a freshly created 2D context. -/
def CtxStyle.initial : CtxStyle :=
  { strokeStyle := "#000000"
    fillStyle := "#000000"
    lineWidth := 1
    lineCap := "butt"
    lineJoin := "miter"
    globalAlpha := 1
    lineDash := []
    globalCompositeOperation := "source-over"
    font := "10px sans-serif"
    textAlign := "start"
    textBaseline := "alphabetic"
    shadowColor := "rgba(0, 0, 0, 0)"
    shadowBlur := 0 }

/-- A segment of the current path. -/
inductive PathSeg where
  | moveTo (x y : ℚ)
  | lineTo (x y : ℚ)
  | arc (x y radius startAngle endAngle : ℚ)
  | close
deriving DecidableEq

/-- One painting call issued against the canvas, together with the style
state in force when it was issued.  The contents of the drawing surface
are the list of painting calls issued so far. -/
inductive PaintOp where
  | strokePath (path : List PathSeg) (style : CtxStyle)
  | fillPath (path : List PathSeg) (style : CtxStyle)
  | fillRectOp (x y w h : ℚ) (style : CtxStyle)
  | strokeRectOp (x y w h : ℚ) (style : CtxStyle)
  | strokeTextOp (s : String) (x y : ℚ) (style : CtxStyle)
  | fillTextOp (s : String) (x y : ℚ) (style : CtxStyle)
deriving DecidableEq

/-- The drawing surface: the full-frame pixel content of the canvas,
represented as the list of painting calls that produced it. -/
abbrev Surface : Type := List PaintOp

/-- The 2D drawing context: style state, the save/restore style stack, the
current path, and the surface. -/
structure Ctx where
  style : CtxStyle
  styleStack : List CtxStyle
  path : List PathSeg
  surface : Surface
deriving DecidableEq

/-- A fresh context over an empty (fully transparent) canvas. -/
def Ctx.fresh : Ctx :=
  ⟨CtxStyle.initial, [], [], []⟩

def beginPath (c : Ctx) : Ctx := { c with path := [] }

def moveTo (x y : ℚ) (c : Ctx) : Ctx := { c with path := c.path ++ [PathSeg.moveTo x y] }

def lineTo (x y : ℚ) (c : Ctx) : Ctx := { c with path := c.path ++ [PathSeg.lineTo x y] }

def arcPath (x y radius a0 a1 : ℚ) (c : Ctx) : Ctx :=
  { c with path := c.path ++ [PathSeg.arc x y radius a0 a1] }

def closePath (c : Ctx) : Ctx := { c with path := c.path ++ [PathSeg.close] }

def stroke (c : Ctx) : Ctx :=
  { c with surface := c.surface ++ [PaintOp.strokePath c.path c.style] }

def fillCurrentPath (c : Ctx) : Ctx :=
  { c with surface := c.surface ++ [PaintOp.fillPath c.path c.style] }

def fillRect (x y w h : ℚ) (c : Ctx) : Ctx :=
  { c with surface := c.surface ++ [PaintOp.fillRectOp x y w h c.style] }

def strokeRect (x y w h : ℚ) (c : Ctx) : Ctx :=
  { c with surface := c.surface ++ [PaintOp.strokeRectOp x y w h c.style] }

def strokeText (t : String) (x y : ℚ) (c : Ctx) : Ctx :=
  { c with surface := c.surface ++ [PaintOp.strokeTextOp t x y c.style] }

def fillText (t : String) (x y : ℚ) (c : Ctx) : Ctx :=
  { c with surface := c.surface ++ [PaintOp.fillTextOp t x y c.style] }

/-- getImageData over the full canvas: the current surface content. -/
def getImageData (c : Ctx) : Surface := c.surface

/-- putImageData of a full-frame snapshot at (0,0): replaces the pixel
content of the canvas with the snapshot. -/
def putImageData (d : Surface) (c : Ctx) : Ctx := { c with surface := d }

/-- ctx.save(): push the current style state. -/
def saveCtx (c : Ctx) : Ctx := { c with styleStack := c.style :: c.styleStack }

/-- ctx.restore(): pop the style stack into the style state. -/
def restoreCtx (c : Ctx) : Ctx :=
  match c.styleStack with
  | [] => c
  | st :: rest => { c with style := st, styleStack := rest }

def setGlobalAlpha (a : ℚ) (c : Ctx) : Ctx :=
  { c with style := { c.style with globalAlpha := a } }

/-- The JS String.prototype.trim call used by commitText (source line
461): strip leading and trailing whitespace. -/
def jsTrim (s : String) : String :=
  String.mk (((s.data.dropWhile Char.isWhitespace).reverse.dropWhile Char.isWhitespace).reverse)

/-- The platform math routines the component calls (Math.sqrt, Math.atan2,
Math.cos, Math.sin, Number.toFixed(1), Math.PI).  These are host-provided,
not code of the repository, so they are kept as uninterpreted parameters;
no claim depends on their values. -/
structure JsMath where
  sqrt : ℚ → ℚ
  atan2 : ℚ → ℚ → ℚ
  cos : ℚ → ℚ
  sin : ℚ → ℚ
  toFixed1 : ℚ → String
  pi : ℚ

/-- The pending text overlay (source lines 73-79; the unused optional
rotation field is omitted). -/
structure TextInputState where
  isVisible : Bool
  x : ℚ
  y : ℚ
  value : String
deriving DecidableEq

/-- A pointer event: client coordinates and the button index. -/
structure MouseEv where
  clientX : ℚ
  clientY : ℚ
  button : Nat
deriving DecidableEq

/-- A wheel event. -/
structure WheelEv where
  deltaY : ℚ
  clientX : ℚ
  clientY : ℚ
deriving DecidableEq

/-- The full state of the ImageDrawingCanvas component: every useState of
the source (lines 44-79) that the verified handlers read or write, plus
the drawing context and the top-left corner of the container bounding
client rect (used by getPos and handleWheel to convert event client
coordinates to container-relative coordinates). -/
structure CState where
  zoom : ℚ
  pan : ℚ × ℚ
  isPanning : Bool
  lastPanPoint : ℚ × ℚ
  ctx : Ctx
  history : List Surface
  redoStack : List Surface
  tool : Tool
  color : String
  lineWidth : ℚ
  opacity : ℚ
  lineStyle : LineStyle
  isFilled : Bool
  isDrawing : Bool
  startPos : Option (ℚ × ℚ)
  snapshot : Option Surface
  textInput : TextInputState
  dimensions : ℚ × ℚ
  bgImageUrl : String
  description : String
  containerOrigin : ℚ × ℚ
deriving DecidableEq

namespace Comp

/-- getPos (source lines 271-286): make the pointer position relative to
the container, then convert to world coordinates. -/
def getPos (s : CState) (e : MouseEv) : ℚ × ℚ :=
  let clientX := e.clientX - s.containerOrigin.1
  let clientY := e.clientY - s.containerOrigin.2
  worldFromScreen s.zoom s.pan (clientX, clientY)

/-- handleWheel (source lines 145-174): always zooms (the guard is
ctrlKey or metaKey or true); the new zoom is the old zoom plus
-deltaY * 0.001 clamped to [0.1, 5], and the new pan keeps the world
point under the mouse fixed. -/
def handleWheel (s : CState) (e : WheelEv) : CState :=
  let scaleAmount := -e.deltaY * (1 / 1000)
  let newZoom := min (max (1 / 10) (s.zoom + scaleAmount)) 5
  let mouseX := e.clientX - s.containerOrigin.1
  let mouseY := e.clientY - s.containerOrigin.2
  let worldX := (mouseX - s.pan.1) / s.zoom
  let worldY := (mouseY - s.pan.2) / s.zoom
  let newPanX := mouseX - worldX * newZoom
  let newPanY := mouseY - worldY * newZoom
  { s with zoom := newZoom, pan := (newPanX, newPanY) }

/-- saveState at the component level (source lines 192-202): snapshot the
current canvas content into the history (bounded at 20 entries) and clear
the redo stack. -/
def saveState (s : CState) : CState :=
  let h := Hist.saveState ⟨getImageData s.ctx, s.history, s.redoStack⟩
  { s with history := h.history, redoStack := h.redoStack }

/-- handleUndo at the component level (source lines 204-214); restoring a
snapshot is putImageData of the snapshot (when the guard makes the core a
no-op, the written surface is the unchanged current surface). -/
def handleUndo (s : CState) : CState :=
  let h := Hist.undo ⟨s.ctx.surface, s.history, s.redoStack⟩
  { s with history := h.history, redoStack := h.redoStack,
           ctx := putImageData h.surface s.ctx }

/-- handleRedo at the component level (source lines 216-224). -/
def handleRedo (s : CState) : CState :=
  let h := Hist.redo ⟨s.ctx.surface, s.history, s.redoStack⟩
  { s with history := h.history, redoStack := h.redoStack,
           ctx := putImageData h.surface s.ctx }

/-- applyStyles (source lines 234-267): base style from the session
settings, then the dash pattern, then the tool overrides (highlighter
forces alpha, width, color fallback and source-over; the eraser forces a
4x width, full alpha and destination-out; every other tool gets
source-over). -/
def applyStyles (s : CState) (c : Ctx) : Ctx :=
  let st := { c.style with
    strokeStyle := s.color
    fillStyle := s.color
    lineWidth := s.lineWidth
    lineCap := "round"
    lineJoin := "round"
    globalAlpha := s.opacity }
  let st :=
    match s.lineStyle with
    | LineStyle.dashed => { st with lineDash := [s.lineWidth * 3, s.lineWidth * 2] }
    | LineStyle.dotted => { st with lineDash := [s.lineWidth, s.lineWidth * 2] }
    | LineStyle.solid => { st with lineDash := [] }
  let st :=
    if s.tool = Tool.highlighter then
      { st with
        globalAlpha := 3 / 10
        lineWidth := 20
        strokeStyle := if s.color = "#FFFFFF" then "#FFFF00" else s.color
        lineDash := []
        globalCompositeOperation := "source-over" }
    else if s.tool = Tool.eraser then
      { st with
        lineWidth := s.lineWidth * 4
        globalAlpha := 1
        lineDash := []
        globalCompositeOperation := "destination-out" }
    else
      { st with globalCompositeOperation := "source-over" }
  { c with style := st }

/-- drawArrow (source lines 425-439). -/
def drawArrow (M : JsMath) (lw : ℚ) (c : Ctx) (x1 y1 x2 y2 : ℚ) : Ctx :=
  let headLength := 15 + lw
  let angle := M.atan2 (y2 - y1) (x2 - x1)
  let c := stroke (lineTo x2 y2 (moveTo x1 y1 c))
  let c := beginPath c
  let c := moveTo x2 y2 c
  let c := lineTo (x2 - headLength * M.cos (angle - M.pi / 6))
                  (y2 - headLength * M.sin (angle - M.pi / 6)) c
  let c := moveTo x2 y2 c
  let c := lineTo (x2 - headLength * M.cos (angle + M.pi / 6))
                  (y2 - headLength * M.sin (angle + M.pi / 6)) c
  stroke c

/-- drawTHeads (source lines 441-456): perpendicular caps at both ends of
the measured segment. -/
def drawTHeads (M : JsMath) (lw : ℚ) (c : Ctx) (x1 y1 x2 y2 : ℚ) : Ctx :=
  let headSize := 8 + lw
  let angle := M.atan2 (y2 - y1) (x2 - x1)
  let perpAngle := angle + M.pi / 2
  let c := beginPath c
  let c := moveTo (x1 + headSize * M.cos perpAngle) (y1 + headSize * M.sin perpAngle) c
  let c := lineTo (x1 - headSize * M.cos perpAngle) (y1 - headSize * M.sin perpAngle) c
  let c := stroke c
  let c := beginPath c
  let c := moveTo (x2 + headSize * M.cos perpAngle) (y2 + headSize * M.sin perpAngle) c
  let c := lineTo (x2 - headSize * M.cos perpAngle) (y2 - headSize * M.sin perpAngle) c
  stroke c

/-- commitText (source lines 460-487).  With no visible overlay or an
empty/whitespace-only text: hide the overlay, and, when the active tool is
the ruler (line), still saveState so the drawn measurement line is
committed.  Otherwise: save the context, set the text style (full alpha,
source-over, centered, white halo), stroke then fill the text at the
anchor, restore the context, saveState, and hide and clear the overlay. -/
def commitText (s : CState) : CState :=
  if s.textInput.isVisible = false ∨ jsTrim s.textInput.value = "" then
    let s1 := { s with textInput := { s.textInput with isVisible := false } }
    if s1.tool = Tool.line then saveState s1 else s1
  else
    let c := saveCtx s.ctx
    let c := { c with style := { c.style with
      fillStyle := s.color
      font := "bold " ++ toString (max (16 : ℚ) (s.lineWidth * 3)) ++ "px Arial"
      textAlign := "center"
      textBaseline := "middle"
      globalAlpha := 1
      globalCompositeOperation := "source-over"
      shadowColor := "rgba(255,255,255,1)"
      shadowBlur := 4
      lineWidth := 3
      strokeStyle := "white" } }
    let c := strokeText s.textInput.value s.textInput.x s.textInput.y c
    let c := { c with style := { c.style with shadowBlur := 0 } }
    let c := fillText s.textInput.value s.textInput.x s.textInput.y c
    let c := restoreCtx c
    let s1 := saveState { s with ctx := c }
    { s1 with textInput := { s1.textInput with isVisible := false, value := "" } }

/-- handleMouseDown (source lines 288-321): pan tool or middle button
starts panning; with a visible text overlay the handler commits it and
returns; the text tool opens an empty overlay at the world position; any
other tool starts a drawing gesture (snapshot the canvas, begin a styled
path at the world position). -/
def handleMouseDown (s : CState) (e : MouseEv) : CState :=
  if s.tool = Tool.pan ∨ e.button = 1 then
    { s with isPanning := true, lastPanPoint := (e.clientX, e.clientY) }
  else
    let p := getPos s e
    if s.textInput.isVisible = true then
      commitText s
    else if s.tool = Tool.text then
      { s with textInput := { isVisible := true, x := p.1, y := p.2, value := "" } }
    else
      { s with
        isDrawing := true
        startPos := some p
        snapshot := some (getImageData s.ctx)
        ctx := moveTo p.1 p.2 (applyStyles s (beginPath s.ctx)) }

/-- handleMouseMove (source lines 323-388): while panning, translate the
pan offset by the client-coordinate delta; while drawing, restore the
gesture snapshot for the shape tools (live preview without trails), then
re-style and draw the mark of the tool up to the current world position. -/
def handleMouseMove (M : JsMath) (s : CState) (e : MouseEv) : CState :=
  if s.isPanning = true then
    let deltaX := e.clientX - s.lastPanPoint.1
    let deltaY := e.clientY - s.lastPanPoint.2
    { s with pan := (s.pan.1 + deltaX, s.pan.2 + deltaY),
             lastPanPoint := (e.clientX, e.clientY) }
  else
    match s.startPos, s.snapshot with
    | some sp, some snap =>
      if s.isDrawing = false then s
      else
        let p := getPos s e
        let c :=
          if s.tool ∈ [Tool.line, Tool.arrow, Tool.rect, Tool.circle] then
            putImageData snap s.ctx
          else s.ctx
        let c := applyStyles s (beginPath c)
        let c :=
          match s.tool with
          | Tool.pen | Tool.highlighter | Tool.eraser => stroke (lineTo p.1 p.2 c)
          | Tool.line =>
              let c := stroke (lineTo p.1 p.2 (moveTo sp.1 sp.2 c))
              drawTHeads M s.lineWidth c sp.1 sp.2 p.1 p.2
          | Tool.rect =>
              let w := p.1 - sp.1
              let h := p.2 - sp.2
              let c :=
                if s.isFilled = true then
                  setGlobalAlpha s.opacity
                    (fillRect sp.1 sp.2 w h (setGlobalAlpha (s.opacity * (3 / 10)) c))
                else c
              strokeRect sp.1 sp.2 w h c
          | Tool.circle =>
              let radius := M.sqrt ((p.1 - sp.1) ^ 2 + (p.2 - sp.2) ^ 2)
              let c := beginPath c
              let c := arcPath sp.1 sp.2 radius 0 (2 * M.pi) c
              let c :=
                if s.isFilled = true then
                  setGlobalAlpha s.opacity
                    (fillCurrentPath (setGlobalAlpha (s.opacity * (3 / 10)) c))
                else c
              stroke c
          | Tool.arrow => drawArrow M s.lineWidth c sp.1 sp.2 p.1 p.2
          | _ => c
        { s with ctx := c }
    | _, _ => s

/-- handleMouseUp (source lines 390-421): end panning, or end the drawing
gesture; for the ruler (line) tool, compute the measured length and open
the pre-filled measurement overlay at the segment midpoint (history commit
deferred to the text commit); for every other tool, close the path for the
freehand tools and saveState. -/
def handleMouseUp (M : JsMath) (s : CState) (e : MouseEv) : CState :=
  if s.isPanning = true then
    { s with isPanning := false }
  else
    match s.startPos with
    | none => s
    | some sp =>
      if s.isDrawing = false then s
      else
        let s := { s with isDrawing := false }
        if s.tool = Tool.line then
          let p := getPos s e
          let distancePx := M.sqrt ((p.1 - sp.1) ^ 2 + (p.2 - sp.2) ^ 2)
          let cm := M.toFixed1 (distancePx / 38)
          let midX := (sp.1 + p.1) / 2
          let midY := (sp.2 + p.2) / 2
          { s with textInput := { isVisible := true, x := midX, y := midY, value := cm ++ " cm" } }
        else
          let s :=
            if s.tool = Tool.pen ∨ s.tool = Tool.highlighter ∨ s.tool = Tool.eraser then
              { s with ctx := closePath s.ctx }
            else s
          saveState s

/-- The container div binds its onMouseLeave to the very same handleMouseUp
function (source line 676). -/
def handleMouseLeave (M : JsMath) (s : CState) (e : MouseEv) : CState :=
  handleMouseUp M s e

/-- One layer drawn into the export buffer. -/
inductive ExportLayer where
  | imageLayer (url : String) (w h : ℚ)
  | canvasLayer (surface : Surface)
deriving DecidableEq

/-- The offscreen export buffer handed to the PNG encoder: its pixel
dimensions and the layers drawn into it, in drawing order. -/
structure ExportOut where
  width : ℚ
  height : ℚ
  layers : List ExportLayer
deriving DecidableEq

/-- handleSave (source lines 501-533): bail out when the image dimensions
are not yet known; otherwise allocate an offscreen buffer at the native
image dimensions, draw the background image first and the annotation
canvas on top, and encode that buffer.  The encoded output is a
deterministic function of this buffer. -/
def handleSave (s : CState) : Option ExportOut :=
  if s.dimensions.1 = 0 then none
  else
    some
      { width := s.dimensions.1
        height := s.dimensions.2
        layers := [ExportLayer.imageLayer s.bgImageUrl s.dimensions.1 s.dimensions.2,
                   ExportLayer.canvasLayer s.ctx.surface] }

end Comp

/-- Modelled from the spec: the resulting alpha of one annotation layer
pixel fully covered by a painting call, under the two compositing modes
the spec names.  The compositing itself is implemented by the host canvas,
not by code under src; the spec states that the clear/subtract mode
(destination-out) makes pixels transparent again, while source-over paints
normally over them. -/
def compositeAlpha (op : String) (srcAlpha dstAlpha : ℚ) : ℚ :=
  if op = "destination-out" then dstAlpha * (1 - srcAlpha)
  else srcAlpha + dstAlpha * (1 - srcAlpha)

/-! Concrete sessions used to evaluate the handlers on explicit inputs. -/

/-- An arbitrary valuation of the uninterpreted platform math routines;
no evaluated property depends on its values. -/
def M0 : JsMath :=
  { sqrt := fun _ => 0
    atan2 := fun _ _ => 0
    cos := fun _ => 0
    sin := fun _ => 0
    toFixed1 := fun _ => "5.3"
    pi := 3 }

/-- A freshly initialized session over an 800 x 600 image shown at zoom 1
with no pan: empty canvas, history holding only the initial empty
snapshot, pen tool and default settings (source lines 44-79, 120-124). -/
def baseState : CState :=
  { zoom := 1
    pan := (0, 0)
    isPanning := false
    lastPanPoint := (0, 0)
    ctx := Ctx.fresh
    history := [[]]
    redoStack := []
    tool := Tool.pen
    color := "#EF4444"
    lineWidth := 3
    opacity := 1
    lineStyle := LineStyle.solid
    isFilled := false
    isDrawing := false
    startPos := none
    snapshot := none
    textInput := { isVisible := false, x := 0, y := 0, value := "" }
    dimensions := (800, 600)
    bgImageUrl := "laudo.png"
    description := ""
    containerOrigin := (0, 0) }

def eDown : MouseEv := { clientX := 10, clientY := 10, button := 0 }

def eDrag : MouseEv := { clientX := 60, clientY := 60, button := 0 }

/-- One full committed rectangle gesture: pointer down at world (10,10),
drag to (60,60), release.  The release commits one history snapshot. -/
def rectGesture (s : CState) : CState :=
  Comp.handleMouseUp M0 (Comp.handleMouseMove M0 (Comp.handleMouseDown s eDown) eDrag) eDrag

/-- The fresh session with the rectangle tool selected. -/
def rectSession : CState := { baseState with tool := Tool.rect }

/-- The session after twenty committed rectangle drawing actions. -/
def twentyActions : CState := rectGesture^[20] rectSession

/-- The session after twenty committed actions followed by twenty undos. -/
def afterUndos : CState := Comp.handleUndo^[20] twentyActions

def evDown6 : MouseEv := { clientX := 100, clientY := 100, button := 0 }

def evUp6 : MouseEv := { clientX := 300, clientY := 100, button := 0 }

/-- After twenty committed actions (history at its 20-entry bound), the
user selects the ruler tool, draws a measurement line from world (100,100)
to (300,100) — which opens the measurement overlay at the midpoint
(200,100) — and then clears the overlay text. -/
def rulerRun : CState :=
  let s := { twentyActions with tool := Tool.line }
  let s := Comp.handleMouseUp M0 (Comp.handleMouseMove M0 (Comp.handleMouseDown s evDown6) evUp6) evUp6
  { s with textInput := { s.textInput with value := "" } }

/-- A session with the pen tool active and an open text overlay holding
committed-worthy text. -/
def s7 : CState :=
  { baseState with textInput := { isVisible := true, x := 40, y := 40, value := "nodulo" } }

def e7 : MouseEv := { clientX := 50, clientY := 60, button := 0 }

/-- A session with the ruler tool active, an open empty overlay, and a
history far below the 20-entry bound. -/
def sW6 : CState :=
  { baseState with tool := Tool.line,
                   textInput := { isVisible := true, x := 200, y := 100, value := "" } }

/-- A session in the middle of a pen gesture: the pointer went down at
world (10,10), which set isDrawing, recorded the start position and the
pre-gesture snapshot, and began a styled path. -/
def sW9 : CState :=
  { baseState with
      isDrawing := true
      startPos := some (10, 10)
      snapshot := some []
      ctx := moveTo 10 10 (Comp.applyStyles baseState (beginPath baseState.ctx)) }

/-- The fresh session with the eraser tool selected. -/
def eraserState : CState := { baseState with tool := Tool.eraser }

/-- A session with the eraser tool active, a reduced opacity setting and
an open text overlay holding non-empty text. -/
def s10 : CState :=
  { baseState with tool := Tool.eraser, opacity := 1 / 2,
                   textInput := { isVisible := true, x := 30, y := 40, value := "TIRADS 4" } }

/-! Helper lemmas about the history core. -/

theorem getD_concat_self {α : Type} (l : List α) (b d : α) :
    (l ++ [b]).getD l.length d = b := by
  induction l with
  | nil => rfl
  | cons a l ih =>
      simp only [List.cons_append, List.length_cons, List.getD_cons_succ]
      exact ih

theorem getD_concat_getLastD {α : Type} (a0 : α) (l : List α) (b d : α) :
    ((a0 :: l) ++ [b]).getD l.length d = l.getLastD a0 := by
  induction l generalizing a0 with
  | nil => rfl
  | cons c l ih =>
      simp only [List.cons_append, List.length_cons, List.getD_cons_succ, List.getLastD_cons]
      exact ih c

theorem hist_undo_concat {α : Type} (a0 : α) (l : List α) (b srf : α) (r : List α) :
    Hist.undo ⟨srf, (a0 :: l) ++ [b], r⟩ = ⟨l.getLastD a0, a0 :: l, b :: r⟩ := by
  have hlen : ((a0 :: l) ++ [b]).length = l.length + 2 := by simp
  rw [Hist.undo]
  simp only [hlen]
  rw [if_neg (by omega)]
  have h1 : l.length + 2 - 1 = (a0 :: l).length := by simp
  have h2 : l.length + 2 - 2 = l.length := by omega
  simp only [h1, h2, getD_concat_self, getD_concat_getLastD, List.dropLast_concat]

theorem hist_undo_iterate {α : Type} (l : List α) :
    ∀ (a0 : α) (r : List α),
      Hist.undo^[l.length] ⟨l.getLastD a0, a0 :: l, r⟩ = ⟨a0, [a0], l ++ r⟩ := by
  induction l using List.reverseRecOn with
  | nil => intro a0 r; simp
  | append_singleton l b ih =>
      intro a0 r
      have hlen : (l ++ [b]).length = l.length + 1 := by simp
      rw [hlen, Function.iterate_succ_apply, List.getLastD_concat,
          show a0 :: (l ++ [b]) = (a0 :: l) ++ [b] from rfl, hist_undo_concat, ih a0 (b :: r)]
      simp

theorem hist_redo_iterate {α : Type} (l : List α) :
    ∀ (s0 : α) (h r : List α),
      Hist.redo^[l.length] ⟨s0, h, l ++ r⟩ = ⟨l.getLastD s0, h ++ l, r⟩ := by
  induction l with
  | nil => intro s0 h r; simp
  | cons b l ih =>
      intro s0 h r
      rw [List.length_cons, Function.iterate_succ_apply,
          show Hist.redo ⟨s0, h, (b :: l) ++ r⟩ = ⟨b, h ++ [b], l ++ r⟩ from rfl,
          ih b (h ++ [b]) r, List.getLastD_cons, List.append_assoc, List.singleton_append]

theorem hist_pushBounded_of_lt {α : Type} (h : List α) (x : α) (hlt : h.length + 1 ≤ 20) :
    Hist.pushBounded h x = h ++ [x] := by
  simp only [Hist.pushBounded]
  rw [if_neg (by simp; omega)]

theorem hist_pushBounded_of_full {α : Type} (h : List α) (x : α) (hl : h.length = 20) :
    Hist.pushBounded h x = h.tail ++ [x] := by
  simp only [Hist.pushBounded]
  rw [if_pos (by simp [hl])]
  cases h with
  | nil => simp at hl
  | cons a h => rfl

theorem hist_pushBounded_length_le {α : Type} (h : List α) (x : α) (hle : h.length ≤ 20) :
    (Hist.pushBounded h x).length ≤ 20 := by
  simp only [Hist.pushBounded]
  split
  · simp; omega
  · simp at *; omega

theorem hist_snaps_length {α : Type} (fs : List (α → α)) :
    ∀ a : α, (Hist.snaps a fs).length = fs.length := by
  induction fs with
  | nil => intro a; rfl
  | cons f fs ih => intro a; simp [Hist.snaps, ih]

theorem hist_commitList_no_evict {α : Type} (fs : List (α → α)) :
    ∀ (a : α) (h : List α), h.length + fs.length ≤ 20 →
      Hist.commitList fs ⟨a, h, []⟩ =
        ⟨(Hist.snaps a fs).getLastD a, h ++ Hist.snaps a fs, []⟩ := by
  induction fs with
  | nil => intro a h _; simp [Hist.commitList, Hist.snaps]
  | cons f fs ih =>
      intro a h hle
      have hstep : Hist.commit f ⟨a, h, []⟩ = ⟨f a, h ++ [f a], []⟩ := by
        simp only [Hist.commit, Hist.saveState]
        rw [hist_pushBounded_of_lt h (f a) (by simp at hle; omega)]
      show Hist.commitList fs (Hist.commit f ⟨a, h, []⟩) = _
      rw [hstep, ih (f a) (h ++ [f a]) (by simp at hle ⊢; omega)]
      rw [show Hist.snaps a (f :: fs) = f a :: Hist.snaps (f a) fs from rfl,
          List.getLastD_cons, List.append_assoc, List.singleton_append]

theorem hist_commitList_length_le {α : Type} (fs : List (α → α)) :
    ∀ s : Hist.HistState α, s.history.length ≤ 20 →
      (Hist.commitList fs s).history.length ≤ 20 := by
  induction fs with
  | nil => intro s hs; simpa [Hist.commitList] using hs
  | cons f fs ih =>
      intro s hs
      show (Hist.commitList fs (Hist.commit f s)).history.length ≤ 20
      exact ih _ (hist_pushBounded_length_le _ _ hs)

/-! The claims. -/

/-- Claim C1: for every zoom in [0.1, 5.0], every pan offset and every
screen point p, the screen-to-world transform of getPos followed by the
world-to-screen transform returns p exactly (hence within floating-point
tolerance). -/
theorem c1_round_trip_transform (zoom : ℚ) (pan p : ℚ × ℚ)
    (h1 : 1 / 10 ≤ zoom) (h2 : zoom ≤ 5) :
    screenFromWorld zoom pan (worldFromScreen zoom pan p) = p := by
  have hz : zoom ≠ 0 := by
    intro h
    rw [h] at h1
    norm_num at h1
  simp [worldFromScreen, screenFromWorld, div_mul_cancel₀ _ hz]

/-- Witness for C1 at zoom 2, pan (7,-3), screen point (41,13). -/
theorem c1_witness :
    screenFromWorld 2 (7, -3) (worldFromScreen 2 (7, -3) (41, 13)) = (41, 13) :=
  c1_round_trip_transform 2 (7, -3) (41, 13) (by norm_num) (by norm_num)

/-- Claim C2: for every viewport state with zoom in [0.1, 5.0] and every
wheel event, the world coordinate of the pointer position is the same
before and after the pointer-anchored zoom of handleWheel, exactly (hence
within floating-point tolerance). -/
theorem c2_zoom_anchor (s : CState) (e : WheelEv)
    (h1 : 1 / 10 ≤ s.zoom) (h2 : s.zoom ≤ 5) :
    worldFromScreen (Comp.handleWheel s e).zoom (Comp.handleWheel s e).pan
        (e.clientX - s.containerOrigin.1, e.clientY - s.containerOrigin.2) =
      worldFromScreen s.zoom s.pan
        (e.clientX - s.containerOrigin.1, e.clientY - s.containerOrigin.2) := by
  have hz : min (max (1 / 10) (s.zoom + -e.deltaY * (1 / 1000))) 5 ≠ 0 := by
    have : (1 / 10 : ℚ) ≤ min (max (1 / 10) (s.zoom + -e.deltaY * (1 / 1000))) 5 :=
      le_min (le_max_left _ _) (by norm_num)
    intro h
    rw [h] at this
    norm_num at this
  simp only [Comp.handleWheel, worldFromScreen, Prod.mk.injEq]
  constructor <;>
    · rw [sub_sub_cancel, mul_div_assoc, div_self hz, mul_one]

/-- Witness for C2 at the fresh session and a concrete wheel event. -/
theorem c2_witness :
    worldFromScreen (Comp.handleWheel baseState ⟨-500, 100, 50⟩).zoom
        (Comp.handleWheel baseState ⟨-500, 100, 50⟩).pan
        ((100 : ℚ) - baseState.containerOrigin.1, (50 : ℚ) - baseState.containerOrigin.2) =
      worldFromScreen baseState.zoom baseState.pan
        ((100 : ℚ) - baseState.containerOrigin.1, (50 : ℚ) - baseState.containerOrigin.2) :=
  c2_zoom_anchor baseState ⟨-500, 100, 50⟩ (by norm_num [baseState]) (by norm_num [baseState])

/-- Claim C3 (amended): for every sequence of at most 19 committed drawing
actions starting from the initial empty canvas — so that the 20-entry
history bound never evicts the initial snapshot — undoing once per action
restores the surface to the initial snapshot, and redoing once per action
then restores the full state after the last action exactly. -/
theorem c3_undo_redo_amended {α : Type} (fs : List (α → α)) (a : α)
    (hn : fs.length ≤ 19) :
    (Hist.undo^[fs.length] (Hist.commitList fs (Hist.initState a))).surface = a ∧
    Hist.redo^[fs.length] (Hist.undo^[fs.length] (Hist.commitList fs (Hist.initState a))) =
      Hist.commitList fs (Hist.initState a) := by
  have hC : Hist.commitList fs (Hist.initState a) =
      ⟨(Hist.snaps a fs).getLastD a, a :: Hist.snaps a fs, []⟩ := by
    rw [show Hist.initState a = (⟨a, [a], []⟩ : Hist.HistState α) from rfl,
        hist_commitList_no_evict fs a [a] (by simp; omega), List.singleton_append]
  have hlen := hist_snaps_length fs a
  have hU : Hist.undo^[fs.length] (Hist.commitList fs (Hist.initState a)) =
      ⟨a, [a], Hist.snaps a fs⟩ := by
    rw [hC, ← hlen]
    have h := hist_undo_iterate (Hist.snaps a fs) a []
    rw [List.append_nil] at h
    exact h
  refine ⟨by rw [hU], ?_⟩
  rw [hU, hC, ← hlen]
  have h := hist_redo_iterate (Hist.snaps a fs) a [a] []
  rw [List.append_nil] at h
  rw [h, List.singleton_append]

/-- Counterexample to C3 as stated: twenty committed rectangle drawing
actions exceed the history bound, so the initial empty snapshot is
evicted and twenty undos do not restore the empty surface. -/
theorem c3_counterexample :
    rectSession.ctx.surface = [] ∧
    rectSession.history = [[]] ∧
    twentyActions.history.length = 20 ∧
    afterUndos.ctx.surface ≠ [] := by
  refine ⟨rfl, rfl, by decide, by decide⟩

/-- Witness for the amended C3: two committed actions over natural-number
surfaces, then two undos and two redos. -/
theorem c3_witness :
    (Hist.undo^[2] (Hist.commitList [fun n => n + 1, fun n => n * 7] (Hist.initState 0))).surface
        = 0 ∧
    Hist.redo^[2]
        (Hist.undo^[2] (Hist.commitList [fun n => n + 1, fun n => n * 7] (Hist.initState 0))) =
      Hist.commitList [fun n => n + 1, fun n => n * 7] (Hist.initState 0) :=
  c3_undo_redo_amended [fun n => n + 1, fun n => n * 7] 0 (by norm_num)

/-- Claim C4: starting from the initial history, no sequence of commits
ever grows the history stack beyond 20 entries, and a commit at the bound
discards the oldest entry (index 0) and keeps the new snapshot at the
top. -/
theorem c4_history_bound {α : Type} (fs : List (α → α)) (a : α) :
    (Hist.commitList fs (Hist.initState a)).history.length ≤ 20 ∧
    ∀ s : Hist.HistState α, s.history.length = 20 →
      (Hist.saveState s).history = s.history.tail ++ [s.surface] := by
  refine ⟨hist_commitList_length_le fs (Hist.initState a) (by simp [Hist.initState]), ?_⟩
  intro s hs
  rw [Hist.saveState]
  exact hist_pushBounded_of_full _ _ hs

/-- Witness for C4: twenty-five successor commits stay within the bound,
and a commit on a full 20-entry history drops exactly the head. -/
theorem c4_witness :
    (Hist.commitList (List.replicate 25 Nat.succ) (Hist.initState 0)).history.length ≤ 20 ∧
    (Hist.saveState ⟨7, List.replicate 20 0, []⟩).history =
      (List.replicate 20 (0 : ℕ)).tail ++ [7] :=
  ⟨(c4_history_bound (List.replicate 25 Nat.succ) 0).1,
   (c4_history_bound ([] : List (ℕ → ℕ)) 0).2 ⟨7, List.replicate 20 0, []⟩ (by simp)⟩

/-- Claim C5: for every session state, applyStyles gives the eraser the
destination-out compositing mode at full source alpha — so a fully covered
previously painted pixel of the annotation layer ends with alpha 0,
revealing the underlying image rather than painting white — and gives
every other tool the normal source-over mode. -/
theorem c5_eraser_compositing (s : CState) (c : Ctx) :
    (s.tool = Tool.eraser →
      (Comp.applyStyles s c).style.globalCompositeOperation = "destination-out" ∧
      (Comp.applyStyles s c).style.globalAlpha = 1 ∧
      ∀ dstAlpha : ℚ,
        compositeAlpha ((Comp.applyStyles s c).style.globalCompositeOperation)
          ((Comp.applyStyles s c).style.globalAlpha) dstAlpha = 0) ∧
    (s.tool ≠ Tool.eraser →
      (Comp.applyStyles s c).style.globalCompositeOperation = "source-over") := by
  constructor
  · intro ht
    cases hl : s.lineStyle <;>
      simp [Comp.applyStyles, ht, hl, compositeAlpha]
  · intro ht
    cases htool : s.tool <;> cases hl : s.lineStyle <;>
      simp_all [Comp.applyStyles]

/-- Witness for C5: the eraser session gets destination-out with alpha 1
(clearing any fully covered pixel), the pen session gets source-over. -/
theorem c5_witness :
    ((Comp.applyStyles eraserState Ctx.fresh).style.globalCompositeOperation =
        "destination-out" ∧
      (Comp.applyStyles eraserState Ctx.fresh).style.globalAlpha = 1 ∧
      ∀ dstAlpha : ℚ,
        compositeAlpha ((Comp.applyStyles eraserState Ctx.fresh).style.globalCompositeOperation)
          ((Comp.applyStyles eraserState Ctx.fresh).style.globalAlpha) dstAlpha = 0) ∧
    (Comp.applyStyles baseState Ctx.fresh).style.globalCompositeOperation = "source-over" :=
  ⟨(c5_eraser_compositing eraserState Ctx.fresh).1 rfl,
   (c5_eraser_compositing baseState Ctx.fresh).2 (by decide)⟩

/-- With no visible overlay or a text that trims to the empty string,
commitText hides the overlay and, exactly when the ruler (line) tool is
active, commits the history. -/
theorem commitText_of_empty (s : CState)
    (he : s.textInput.isVisible = false ∨ jsTrim s.textInput.value = "") :
    Comp.commitText s =
      (if s.tool = Tool.line
       then Comp.saveState { s with textInput := { s.textInput with isVisible := false } }
       else { s with textInput := { s.textInput with isVisible := false } }) := by
  rw [Comp.commitText, if_pos he]

/-- saveState only rewrites the history and redo stack, via the bounded
push of the current surface. -/
theorem saveState_eq (s : CState) :
    Comp.saveState s =
      { s with history := Hist.pushBounded s.history s.ctx.surface, redoStack := [] } := rfl

/-- Claim C6 (amended): committing an open text overlay whose text trims
to the empty string leaves the drawing surface unchanged; and when the
ruler (line) tool is the active tool at commit time and the history is
below its 20-entry bound, the commit still pushes exactly one history
entry, so the history length increases by exactly 1 (at the bound the push
evicts the oldest entry and the length stays 20 instead). -/
theorem c6_empty_text_commit (s : CState)
    (hv : s.textInput.isVisible = true)
    (he : jsTrim s.textInput.value = "") :
    (Comp.commitText s).ctx.surface = s.ctx.surface ∧
    (s.tool = Tool.line → s.history.length < 20 →
      (Comp.commitText s).history = s.history ++ [s.ctx.surface] ∧
      (Comp.commitText s).history.length = s.history.length + 1) := by
  rw [commitText_of_empty s (Or.inr he)]
  constructor
  · split
    · rfl
    · rfl
  · intro hl hlen
    rw [if_pos hl, saveState_eq]
    have hpush : Hist.pushBounded s.history s.ctx.surface = s.history ++ [s.ctx.surface] :=
      hist_pushBounded_of_lt _ _ (by omega)
    constructor
    · simpa using hpush
    · simp [hpush]

/-- Counterexample to C6 as stated: after twenty committed actions the
history sits at its 20-entry bound; a ruler-triggered empty-text commit
then pushes a snapshot but also evicts the oldest entry, so the history
length stays 20 instead of increasing by exactly 1. -/
theorem c6_counterexample :
    rulerRun.textInput.isVisible = true ∧
    rulerRun.textInput.value = "" ∧
    rulerRun.tool = Tool.line ∧
    rulerRun.history.length = 20 ∧
    (Comp.commitText rulerRun).history.length = 20 := by
  have hlen : rulerRun.history.length = 20 := by decide
  refine ⟨by decide, by decide, by decide, hlen, ?_⟩
  rw [commitText_of_empty rulerRun (Or.inr (by decide)), if_pos (by decide), saveState_eq]
  simp only [hist_pushBounded_of_full _ _ hlen]
  simp [List.length_tail, hlen]

/-- Witness for the amended C6: a ruler session with an open empty overlay
and a one-entry history; the commit leaves the surface unchanged and
pushes exactly one entry. -/
theorem c6_witness :
    (Comp.commitText sW6).ctx.surface = sW6.ctx.surface ∧
    (Comp.commitText sW6).history = sW6.history ++ [sW6.ctx.surface] ∧
    (Comp.commitText sW6).history.length = sW6.history.length + 1 :=
  ⟨(c6_empty_text_commit sW6 rfl rfl).1,
   ((c6_empty_text_commit sW6 rfl rfl).2 rfl (by decide)).1,
   ((c6_empty_text_commit sW6 rfl rfl).2 rfl (by decide)).2⟩

/-- With a visible overlay, a pointer-down that is not a pan (neither the
pan tool nor the middle button) only commits the overlay: handleMouseDown
returns exactly commitText of the state. -/
theorem mouseDown_with_overlay (s : CState) (e : MouseEv)
    (hv : s.textInput.isVisible = true)
    (hnp : ¬(s.tool = Tool.pan ∨ e.button = 1)) :
    Comp.handleMouseDown s e = Comp.commitText s := by
  simp only [Comp.handleMouseDown]
  rw [if_neg hnp, if_pos hv]

/-- commitText always hides the overlay and never touches the gesture
state: isDrawing and startPos are unchanged. -/
theorem commitText_fields (s : CState) :
    (Comp.commitText s).textInput.isVisible = false ∧
    (Comp.commitText s).isDrawing = s.isDrawing ∧
    (Comp.commitText s).startPos = s.startPos := by
  by_cases hg : s.textInput.isVisible = false ∨ jsTrim s.textInput.value = ""
  · rw [commitText_of_empty s hg]
    split
    · exact ⟨rfl, rfl, rfl⟩
    · exact ⟨rfl, rfl, rfl⟩
  · rw [Comp.commitText, if_neg hg]
    exact ⟨rfl, rfl, rfl⟩

/-- Claim C7 (amended): a pointer-down received while a text overlay is
open commits the pending overlay (closing it, with no data loss) and is
then consumed: the handler returns right after the commit, so the same
click does not additionally start a stroke or open a new overlay; the
next click is processed as a fresh action. -/
theorem c7_overlay_click (s : CState) (e : MouseEv)
    (hv : s.textInput.isVisible = true)
    (hnp : ¬(s.tool = Tool.pan ∨ e.button = 1)) :
    Comp.handleMouseDown s e = Comp.commitText s ∧
    (Comp.commitText s).textInput.isVisible = false ∧
    (Comp.commitText s).isDrawing = s.isDrawing ∧
    (Comp.commitText s).startPos = s.startPos :=
  ⟨mouseDown_with_overlay s e hv hnp, commitText_fields s⟩

/-- Counterexample to C7 as stated: with the pen tool active, an open
overlay and a plain left-button click, the handler commits and closes the
overlay but starts no stroke — isDrawing stays false and no start position
is recorded, so the pointer-down is not processed as a fresh action. -/
theorem c7_counterexample :
    s7.textInput.isVisible = true ∧
    s7.tool = Tool.pen ∧
    e7.button = 0 ∧
    (Comp.handleMouseDown s7 e7).isDrawing = false ∧
    (Comp.handleMouseDown s7 e7).startPos = none ∧
    (Comp.handleMouseDown s7 e7).textInput.isVisible = false := by
  have h := mouseDown_with_overlay s7 e7 rfl (by decide)
  have hf := commitText_fields s7
  refine ⟨rfl, rfl, rfl, ?_, ?_, ?_⟩
  · rw [h, hf.2.1]
    rfl
  · rw [h, hf.2.2]
    rfl
  · rw [h]
    exact hf.1

/-- Witness for the amended C7 at the concrete pen session with an open
overlay. -/
theorem c7_witness :
    Comp.handleMouseDown s7 e7 = Comp.commitText s7 ∧
    (Comp.commitText s7).textInput.isVisible = false ∧
    (Comp.commitText s7).isDrawing = s7.isDrawing ∧
    (Comp.commitText s7).startPos = s7.startPos :=
  c7_overlay_click s7 e7 rfl (by decide)

/-- Claim C8: handleSave reads only the native image dimensions, the
background image and the annotation surface — never zoom, pan or any other
viewport state — and its buffer is the native-resolution image layer drawn
first with the annotation surface on top, so exports at any two viewport
states are pixel-identical. -/
theorem c8_export_invariance (s : CState) :
    (∀ (z : ℚ) (p lp : ℚ × ℚ) (b : Bool),
        Comp.handleSave { s with zoom := z, pan := p, isPanning := b, lastPanPoint := lp } =
          Comp.handleSave s) ∧
    (∀ out : Comp.ExportOut, Comp.handleSave s = some out →
      out.width = s.dimensions.1 ∧ out.height = s.dimensions.2 ∧
      out.layers = [Comp.ExportLayer.imageLayer s.bgImageUrl s.dimensions.1 s.dimensions.2,
                    Comp.ExportLayer.canvasLayer s.ctx.surface]) := by
  constructor
  · intro z p lp b
    rfl
  · intro out h
    rw [Comp.handleSave] at h
    split at h
    · exact absurd h (by simp)
    · injection h with h
      subst h
      exact ⟨rfl, rfl, rfl⟩

/-- Witness for C8: exporting the fresh session at zoom 3 with a shifted
pan gives the same output as at its original viewport, and the output is
the native 800 x 600 buffer with the image below the annotations. -/
theorem c8_witness :
    Comp.handleSave
        { baseState with zoom := 3, pan := (5, 5), isPanning := true, lastPanPoint := (1, 2) } =
      Comp.handleSave baseState ∧
    ((⟨800, 600, [Comp.ExportLayer.imageLayer "laudo.png" 800 600,
        Comp.ExportLayer.canvasLayer []]⟩ : Comp.ExportOut).width = baseState.dimensions.1 ∧
      (⟨800, 600, [Comp.ExportLayer.imageLayer "laudo.png" 800 600,
        Comp.ExportLayer.canvasLayer []]⟩ : Comp.ExportOut).height = baseState.dimensions.2 ∧
      (⟨800, 600, [Comp.ExportLayer.imageLayer "laudo.png" 800 600,
        Comp.ExportLayer.canvasLayer []]⟩ : Comp.ExportOut).layers =
        [Comp.ExportLayer.imageLayer baseState.bgImageUrl baseState.dimensions.1
            baseState.dimensions.2,
         Comp.ExportLayer.canvasLayer baseState.ctx.surface]) :=
  ⟨(c8_export_invariance baseState).1 3 (5, 5) (1, 2) true,
   (c8_export_invariance baseState).2 _ (by decide)⟩

/-- Claim C9 (implicit): the container binds mouse-leave to the very same
handleMouseUp function, so leaving the canvas during an in-progress
drawing gesture with a non-ruler tool behaves exactly like releasing the
button inside: it ends the gesture and commits one bounded history
snapshot of the surface, clearing the redo stack. -/
theorem c9_mouse_leave (M : JsMath) (s : CState) (e : MouseEv) (p : ℚ × ℚ)
    (hpan : s.isPanning = false) (hd : s.isDrawing = true)
    (hsp : s.startPos = some p) (ht : ¬ s.tool = Tool.line) :
    Comp.handleMouseLeave M s e = Comp.handleMouseUp M s e ∧
    (Comp.handleMouseLeave M s e).isDrawing = false ∧
    (Comp.handleMouseLeave M s e).history = Hist.pushBounded s.history s.ctx.surface ∧
    (Comp.handleMouseLeave M s e).redoStack = [] := by
  refine ⟨rfl, ?_, ?_, ?_⟩ <;>
    · simp only [Comp.handleMouseLeave]
      by_cases hf : s.tool = Tool.pen ∨ s.tool = Tool.highlighter ∨ s.tool = Tool.eraser <;>
        simp [Comp.handleMouseUp, saveState_eq, hpan, hsp, hd, ht, hf, closePath]

/-- Witness for C9: the in-progress pen gesture ended by a mouse-leave at
the concrete drag position. -/
theorem c9_witness :
    Comp.handleMouseLeave M0 sW9 eDrag = Comp.handleMouseUp M0 sW9 eDrag ∧
    (Comp.handleMouseLeave M0 sW9 eDrag).isDrawing = false ∧
    (Comp.handleMouseLeave M0 sW9 eDrag).history =
      Hist.pushBounded sW9.history sW9.ctx.surface ∧
    (Comp.handleMouseLeave M0 sW9 eDrag).redoStack = [] :=
  c9_mouse_leave M0 sW9 eDrag (10, 10) (by decide) (by decide) (by decide) (by decide)

/-- Claim C10 (implicit): a non-empty text-overlay commit rasterizes the
text with a halo stroke and a fill whose styles force globalAlpha 1 and
source-over compositing, whatever the session opacity and active tool are
(in particular the eraser), and then restores the previous context
style. -/
theorem c10_text_commit_style (s : CState)
    (hv : s.textInput.isVisible = true)
    (he : jsTrim s.textInput.value ≠ "") :
    ∃ st1 st2 : CtxStyle,
      (Comp.commitText s).ctx.surface =
        (s.ctx.surface ++
            [PaintOp.strokeTextOp s.textInput.value s.textInput.x s.textInput.y st1]) ++
          [PaintOp.fillTextOp s.textInput.value s.textInput.x s.textInput.y st2] ∧
      st1.globalAlpha = 1 ∧ st1.globalCompositeOperation = "source-over" ∧
      st2.globalAlpha = 1 ∧ st2.globalCompositeOperation = "source-over" ∧
      (Comp.commitText s).ctx.style = s.ctx.style ∧
      (Comp.commitText s).textInput.isVisible = false := by
  rw [Comp.commitText, if_neg (by simp [hv, he])]
  refine ⟨{ s.ctx.style with
      fillStyle := s.color
      font := "bold " ++ toString (max (16 : ℚ) (s.lineWidth * 3)) ++ "px Arial"
      textAlign := "center"
      textBaseline := "middle"
      globalAlpha := 1
      globalCompositeOperation := "source-over"
      shadowColor := "rgba(255,255,255,1)"
      shadowBlur := 4
      lineWidth := 3
      strokeStyle := "white" },
    { s.ctx.style with
      fillStyle := s.color
      font := "bold " ++ toString (max (16 : ℚ) (s.lineWidth * 3)) ++ "px Arial"
      textAlign := "center"
      textBaseline := "middle"
      globalAlpha := 1
      globalCompositeOperation := "source-over"
      shadowColor := "rgba(255,255,255,1)"
      shadowBlur := 0
      lineWidth := 3
      strokeStyle := "white" }, rfl, rfl, rfl, rfl, rfl, rfl, rfl⟩

/-- Witness for C10: committing the overlay of the eraser session with
halved opacity still paints the glyphs at full alpha with source-over. -/
theorem c10_witness :
    ∃ st1 st2 : CtxStyle,
      (Comp.commitText s10).ctx.surface =
        (s10.ctx.surface ++
            [PaintOp.strokeTextOp s10.textInput.value s10.textInput.x s10.textInput.y st1]) ++
          [PaintOp.fillTextOp s10.textInput.value s10.textInput.x s10.textInput.y st2] ∧
      st1.globalAlpha = 1 ∧ st1.globalCompositeOperation = "source-over" ∧
      st2.globalAlpha = 1 ∧ st2.globalCompositeOperation = "source-over" ∧
      (Comp.commitText s10).ctx.style = s10.ctx.style ∧
      (Comp.commitText s10).textInput.isVisible = false :=
  c10_text_commit_style s10 rfl (by decide)

end Canvas
